import Mathlib

/-!
Shallow embedding of the HSS Boot Orchestration Core
(`src/services/boot/hss_boot_service.c`), covering the boot image
validator, the header CRC check, the per-hart boot state machine
handlers, the IPI acknowledgement scan, the domain registration helper,
the PMP setup handler running on the target hart, and the public
restart-by-bitmask API.

Conventions of the embedding:
* Machine integers become `Nat`; addresses are plain numbers with the
  image base taken as 0, so a chunk's load source is `loadAddr + offset`.
* External collaborators (permission oracle, IPI transport, DDR service,
  clock, CRC-32 routine, signing check) are parameters: either fields of
  a per-tick `BootEnv` record or explicit function arguments.  Each
  handler models one invocation (one cooperative-scheduler tick).
* Writes the orchestrator performs into target memory, deliveries of IPI
  messages and log calls are recorded as explicit events.
* The C `struct HSS_Boot_LocalData` and the relevant fields of
  `struct StateMachine` become `LocalData` and `Machine` records; IPI
  slot indices use the sentinel `IPI_MAX_NUM_OUTSTANDING_COMPLETES`
  exactly like the source.
-/

/-- `BOOT_SUB_CHUNK_SIZE` from the source (256 bytes). -/
def BOOT_SUB_CHUNK_SIZE : Nat := 256

/-- Modelled from the spec: `ONE_SEC` is a clock constant defined outside
`src/` (`hss_clock.h`); only its positivity matters to the claims, the
model fixes one million ticks per second. -/
def ONE_SEC : Nat := 1000000

/-- `BOOT_SETUP_PMP_COMPLETE_TIMEOUT (ONE_SEC * 1u)` from the source. -/
def BOOT_SETUP_PMP_COMPLETE_TIMEOUT : Nat := ONE_SEC * 1

/-- `BOOT_WAIT_TIMEOUT (ONE_SEC * 5u)` from the source. -/
def BOOT_WAIT_TIMEOUT : Nat := ONE_SEC * 5

/-- Modelled from the spec: the IPI coordinator's sentinel
`IPI_MAX_NUM_OUTSTANDING_COMPLETES` marking an unallocated slot is
defined outside `src/`; the model fixes it at 8, a genuine slot index is
any other number. -/
def IPI_MAX_NUM_OUTSTANDING_COMPLETES : Nat := 8

/-- Modelled from the spec: the plain boot magic constant lives in a
header outside `src/`; the claims only need it distinct from the
compressed magic. -/
def mHSS_BOOT_MAGIC : Nat := 0xB007C0DE

/-- Modelled from the spec: the compressed boot magic constant, distinct
from the plain magic. -/
def mHSS_COMPRESSED_MAGIC : Nat := 0xC08B8355

/-- `enum IPIStatusCode` (the two values the boot service produces). -/
inductive IPIStatusCode where
  | IPI_SUCCESS
  | IPI_FAIL
deriving DecidableEq, Repr

export IPIStatusCode (IPI_SUCCESS IPI_FAIL)

/-- `enum BootStatesEnum` from the source. -/
inductive BootStateId where
  | BOOT_INITIALIZATION
  | BOOT_SETUP_PMP
  | BOOT_SETUP_PMP_COMPLETE
  | BOOT_ZERO_INIT_CHUNKS
  | BOOT_DOWNLOAD_CHUNKS
  | BOOT_OPENSBI_INIT
  | BOOT_WAIT
  | BOOT_COMPLETE
  | BOOT_IDLE
  | BOOT_ERROR
deriving DecidableEq, Repr

export BootStateId (BOOT_INITIALIZATION BOOT_SETUP_PMP BOOT_SETUP_PMP_COMPLETE
  BOOT_ZERO_INIT_CHUNKS BOOT_DOWNLOAD_CHUNKS BOOT_OPENSBI_INIT BOOT_WAIT
  BOOT_COMPLETE BOOT_IDLE BOOT_ERROR)

/-- IPI message kinds delivered by the boot core. -/
inductive IPIMsg where
  | PMP_SETUP
  | OPENSBI_INIT
  | GOTO
  | BOOT_REQUEST
deriving DecidableEq, Repr

/-- `struct HSS_BootChunkDesc`.  The C `owner` field packs a hart id and
the `BOOT_FLAG_ANCILLIARY_DATA` bit (bit value defined outside `src/`);
the model splits it into the masked hart id `owner` and the bit
`ancFlag`, so the C `owner & ~BOOT_FLAG_ANCILLIARY_DATA` is `owner`,
`owner & BOOT_FLAG_ANCILLIARY_DATA` is `ancFlag` and the full-word
comparison `owner == target` is `owner = target ∧ ancFlag = false`. -/
structure BootChunkDesc where
  owner : Nat
  ancFlag : Bool
  loadAddr : Nat
  execAddr : Nat
  size : Nat
deriving DecidableEq, Repr

/-- `struct HSS_BootZIChunkDesc`. -/
structure BootZIChunkDesc where
  owner : Nat
  execAddr : Nat
  size : Nat
deriving DecidableEq, Repr

/-- Per-hart descriptor inside `struct HSS_BootImage`.  The C `flags`
bitmask (bit values defined outside `src/`) is split into one Bool per
flag. -/
structure HartDesc where
  entryPoint : Nat
  privMode : Nat
  numChunks : Nat
  firstChunk : Nat
  lastChunk : Nat
  flagSkipOpenSBI : Bool
  flagSkipAutoboot : Bool
  flagAllowColdReboot : Bool
  flagAllowWarmReboot : Bool
deriving DecidableEq, Repr

/-- `struct HSS_BootImage`.  Header bytes other than `magic`,
`headerCrc`, `version` and `signature` (set name, table offsets, the
serialized hart descriptors, padding) are abstracted as the raw byte
lists `v0rest` (bytes inside the legacy `HSS_BootImage_v0` footprint)
and `extrabytes` (bytes only in the current header).  The chunk tables
are total functions from a table index to a descriptor, mirroring C
pointer arithmetic from the table base (the `size = 0` sentinel
terminates iteration); `hart i` is the C `hart[i]`. -/
structure BootImage where
  magic : Nat
  headerCrc : Nat
  version : Nat
  signature : List Nat
  v0rest : List Nat
  extrabytes : List Nat
  chunkTable : Nat → BootChunkDesc
  ziTable : Nat → BootZIChunkDesc
  hart : Nat → HartDesc

/-- `struct HSS_Boot_LocalData`.  The chunk cursors `pChunk`/`pZiChunk`
are indices into the corresponding tables; `msgIndexAux` is the
four-entry aux slot array indexed by `peer - 1`. -/
structure LocalData where
  target : Nat
  pChunk : Nat
  pZiChunk : Nat
  chunkCount : Nat
  ziChunkCount : Nat
  subChunkOffset : Nat
  msgIndex : Nat
  hartMask : Nat
  iterator : Nat
  ancilliaryData : Nat
  msgIndexAux : List Nat
deriving DecidableEq, Repr

/-- The fields of `struct StateMachine` the boot handlers read or
write. -/
structure Machine where
  state : BootStateId
  startTime : Nat
  ld : LocalData
deriving DecidableEq, Repr

/-- Per-tick environment: the external collaborators a single handler
invocation consults.  `perm` is `HSS_PMP_CheckWrite`, `ipiComplete` is
`IPI_MessageCheckIfComplete`, `allocSlot` the index the (asserted
successful) `IPI_MessageAlloc` hands out, `deliver` the result of
`IPI_MessageDeliver` keyed by the destination hart, `now` the value of
`HSS_GetTime`, `inDDR` is `HSS_DDR_IsAddrInDDR` and `ddrTrained` is
`HSS_Trigger_IsNotified(EVENT_DDR_TRAINED)`. -/
structure BootEnv where
  now : Nat
  perm : Nat → Nat → Nat → Bool
  ipiComplete : Nat → Bool
  allocSlot : Nat
  deliver : Nat → Bool
  inDDR : Nat → Bool
  ddrTrained : Bool

/-- Observable actions of one handler invocation: memory writes the
orchestrator performs on a target's behalf, IPI deliveries, the status
bit write and log calls. -/
inductive BootEvent where
  | copyE (dst src len : Nat)
  | zeroE (dst len : Nat)
  | deliverE (slot : Nat) (tgt : Nat) (msg : IPIMsg)
  | statusBitE (tgt : Nat)
  | logErrorE
  | logWarnE
deriving DecidableEq, Repr

/-- Result of one handler invocation. -/
structure HandlerOut where
  m : Machine
  events : List BootEvent
deriving DecidableEq, Repr

/-- Modelled from the spec: `HSS_Timer_IsElapsed` (clock service,
outside `src/`) — a timeout has expired when at least `timeout` ticks
have passed since `start`. -/
def HSS_Timer_IsElapsed (now start timeout : Nat) : Bool :=
  decide (start + timeout ≤ now)

/-- `free_msg_index`: release the primary slot if allocated. -/
def free_msg_index (ld : LocalData) : LocalData :=
  if ld.msgIndex ≠ IPI_MAX_NUM_OUTSTANDING_COMPLETES then
    { ld with msgIndex := IPI_MAX_NUM_OUTSTANDING_COMPLETES }
  else ld

/-- `free_msg_index_aux`: release the aux slot for `peer` if
allocated. -/
def free_msg_index_aux (ld : LocalData) (peer : Nat) : LocalData :=
  if ld.msgIndexAux.getD (peer - 1) IPI_MAX_NUM_OUTSTANDING_COMPLETES
      ≠ IPI_MAX_NUM_OUTSTANDING_COMPLETES then
    { ld with msgIndexAux := ld.msgIndexAux.set (peer - 1) IPI_MAX_NUM_OUTSTANDING_COMPLETES }
  else ld

/-- The timeout paths free every aux slot and then the primary slot
(the loop over `bootMachine` of `free_msg_index_aux` followed by
`free_msg_index`). -/
def free_all_slots (ld : LocalData) : LocalData :=
  free_msg_index
    (free_msg_index_aux (free_msg_index_aux (free_msg_index_aux (free_msg_index_aux ld 1) 2) 3) 4)

/-- One iteration of the aux-slot scan loop inside
`check_for_ipi_acks`: if the peer's aux slot is allocated, `result` is
overwritten with that slot's completion status and the slot is freed
when complete; otherwise `result` is left alone. -/
def ackScanPeer (complete : Nat → Bool) (acc : Bool × LocalData) (peer : Nat) :
    Bool × LocalData :=
  let slot := acc.2.msgIndexAux.getD (peer - 1) IPI_MAX_NUM_OUTSTANDING_COMPLETES
  if slot ≠ IPI_MAX_NUM_OUTSTANDING_COMPLETES then
    if complete slot then
      (true, { acc.2 with msgIndexAux := acc.2.msgIndexAux.set (peer - 1) IPI_MAX_NUM_OUTSTANDING_COMPLETES })
    else
      (false, acc.2)
  else acc

/-- `check_for_ipi_acks`: scan the aux slots of peers `1..4` in order,
then conjoin the primary slot's completion, freeing each slot observed
complete. -/
def check_for_ipi_acks (complete : Nat → Bool) (ld : LocalData) : Bool × LocalData :=
  let acc := [1, 2, 3, 4].foldl (ackScanPeer complete) (true, ld)
  if acc.2.msgIndex ≠ IPI_MAX_NUM_OUTSTANDING_COMPLETES then
    if acc.1 && complete acc.2.msgIndex then
      (true, { acc.2 with msgIndex := IPI_MAX_NUM_OUTSTANDING_COMPLETES })
    else
      (false, acc.2)
  else acc

/-- `boot_zero_init_chunks_handler`: on a non-sentinel ZI chunk owned by
the target, wait while the chunk is in untrained DDR, otherwise zero it
(`boot_do_zero_init_chunk`, a `memset`) and advance; a foreign-owned
chunk just advances the cursor; the sentinel moves the FSM to
`BOOT_DOWNLOAD_CHUNKS`. -/
def boot_zero_init_chunks_handler (env : BootEnv) (img : BootImage) (m : Machine) :
    HandlerOut :=
  let zc := img.ziTable m.ld.pZiChunk
  if zc.size ≠ 0 then
    if m.ld.target = zc.owner then
      if env.inDDR zc.execAddr && !env.ddrTrained then
        ⟨m, []⟩
      else
        ⟨{ m with ld := { m.ld with pZiChunk := m.ld.pZiChunk + 1 } },
         [BootEvent.zeroE zc.execAddr zc.size]⟩
    else
      ⟨{ m with ld := { m.ld with pZiChunk := m.ld.pZiChunk + 1 } }, []⟩
  else
    ⟨{ m with state := BOOT_DOWNLOAD_CHUNKS }, []⟩

/-- `boot_download_chunks_onEntry`: when the target has chunks, seed the
cursor at `firstChunk` and reset the counters. -/
def boot_download_chunks_onEntry (img : BootImage) (m : Machine) : Machine :=
  if (img.hart (m.ld.target - 1)).numChunks ≠ 0 then
    { m with ld := { m.ld with pChunk := (img.hart (m.ld.target - 1)).firstChunk, chunkCount := 0, subChunkOffset := 0 } }
  else m

/-- `boot_download_chunks_handler`.  With `BOOT_SUB_CHUNK_SIZE` defined
the copy branch invokes `boot_do_download_chunk(pChunk, subChunkOffset,
BOOT_SUB_CHUNK_SIZE)`, i.e. a `memcpy` of `BOOT_SUB_CHUNK_SIZE` bytes at
offset `subChunkOffset` (image base modelled as 0); the cursor advances
to the next chunk once `subChunkOffset` exceeds the chunk size.  A chunk
failing the ownership or permission test is skipped (cursor advanced)
with an error log when the raw owner word equals the target and a
warning log otherwise. -/
def boot_download_chunks_handler (env : BootEnv) (img : BootImage) (m : Machine) :
    HandlerOut :=
  let hd := img.hart (m.ld.target - 1)
  if hd.numChunks ≠ 0 then
    let ch := img.chunkTable m.ld.pChunk
    if m.ld.chunkCount ≤ hd.lastChunk ∧ ch.size ≠ 0 then
      if ch.owner = m.ld.target ∧ env.perm m.ld.target ch.execAddr ch.size = true then
        let ev := BootEvent.copyE (ch.execAddr + m.ld.subChunkOffset)
          (ch.loadAddr + m.ld.subChunkOffset) BOOT_SUB_CHUNK_SIZE
        let ld1 := if ch.ancFlag = true ∧ m.ld.ancilliaryData = 0 then
            { m.ld with ancilliaryData := ch.execAddr }
          else m.ld
        let newOff := ld1.subChunkOffset + BOOT_SUB_CHUNK_SIZE
        let ld2 := if newOff > ch.size then
            { ld1 with subChunkOffset := 0, chunkCount := ld1.chunkCount + 1, pChunk := ld1.pChunk + 1 }
          else { ld1 with subChunkOffset := newOff }
        ⟨{ m with ld := ld2 }, [ev]⟩
      else
        ⟨{ m with ld := { m.ld with pChunk := m.ld.pChunk + 1 } },
         [if ch.owner = m.ld.target ∧ ch.ancFlag = false then BootEvent.logErrorE
          else BootEvent.logWarnE]⟩
    else
      ⟨{ m with state := BOOT_OPENSBI_INIT }, []⟩
  else
    ⟨{ m with state := BOOT_COMPLETE }, []⟩

/-- `boot_setup_pmp_complete_handler`: at `BOOT_SETUP_PMP_COMPLETE_TIMEOUT`
past the machine's `startTime` (recorded when `boot_init_handler`
started the boot) free every slot and go to `BOOT_ERROR`; otherwise poll
`check_for_ipi_acks` and, when it reports true, go to `BOOT_COMPLETE` if
the target's `SKIP_AUTOBOOT` flag is set and to `BOOT_ZERO_INIT_CHUNKS`
otherwise. -/
def boot_setup_pmp_complete_handler (env : BootEnv) (img : BootImage) (m : Machine) :
    HandlerOut :=
  if HSS_Timer_IsElapsed env.now m.startTime BOOT_SETUP_PMP_COMPLETE_TIMEOUT then
    ⟨{ m with ld := free_all_slots m.ld, state := BOOT_ERROR }, []⟩
  else
    let acks := check_for_ipi_acks env.ipiComplete m.ld
    if acks.1 then
      if (img.hart (m.ld.target - 1)).flagSkipAutoboot then
        ⟨{ m with ld := acks.2, state := BOOT_COMPLETE }, []⟩
      else
        ⟨{ m with ld := acks.2, state := BOOT_ZERO_INIT_CHUNKS }, []⟩
    else
      ⟨{ m with ld := acks.2 }, []⟩

/-- `boot_wait_handler`.  The source assigns
`pMyMachine->startTime = HSS_GetTime()` at the top of every invocation
and only afterwards evaluates `HSS_Timer_IsElapsed(startTime,
BOOT_WAIT_TIMEOUT)`; a target without an entry point completes at once;
when all acks are in, the per-target status bit is set and the FSM
completes. -/
def boot_wait_handler (env : BootEnv) (img : BootImage) (m : Machine) : HandlerOut :=
  let m1 := { m with startTime := env.now }
  if (img.hart (m1.ld.target - 1)).entryPoint = 0 then
    ⟨{ m1 with state := BOOT_COMPLETE }, []⟩
  else if HSS_Timer_IsElapsed env.now m1.startTime BOOT_WAIT_TIMEOUT then
    ⟨{ m1 with ld := free_all_slots m1.ld, state := BOOT_ERROR }, []⟩
  else
    let acks := check_for_ipi_acks env.ipiComplete m1.ld
    if acks.1 then
      ⟨{ m1 with ld := acks.2, state := BOOT_COMPLETE },
       [BootEvent.statusBitE m1.ld.target]⟩
    else
      ⟨{ m1 with ld := acks.2 }, []⟩

/-- `boot_error_handler`: set `BOOT_FAIL_CR` (untracked status write)
and transition to `BOOT_COMPLETE`; no slot is touched. -/
def boot_error_handler (m : Machine) : HandlerOut :=
  ⟨{ m with state := BOOT_COMPLETE }, []⟩

/-- `common_boot_message_delivery`: allocate an aux slot for `tgt`
(asserted to succeed), deliver `GOTO` when the peer's `SKIP_OPENSBI`
flag is set and `OPENSBI_INIT` otherwise, and on delivery failure move
to `BOOT_ERROR` — without freeing the just-allocated slot. -/
def common_boot_message_delivery (env : BootEnv) (img : BootImage) (m : Machine)
    (tgt : Nat) : HandlerOut :=
  let idx := env.allocSlot
  let ld1 := { m.ld with msgIndexAux := m.ld.msgIndexAux.set (tgt - 1) idx }
  let msg := if (img.hart (tgt - 1)).flagSkipOpenSBI then IPIMsg.GOTO
    else IPIMsg.OPENSBI_INIT
  if env.deliver tgt then
    ⟨{ m with ld := ld1 }, [BootEvent.deliverE idx tgt msg]⟩
  else
    ⟨{ m with ld := ld1, state := BOOT_ERROR }, [BootEvent.deliverE idx tgt msg]⟩

/-- `boot_opensbi_init_handler`: only a primary hart (nonzero
`numChunks` and nonzero `entryPoint`) acts; it steps its iterator over
`bootMachine`, delivering an entry-point IPI to each other hart whose
`entryPoint` equals its own, and moves to `BOOT_WAIT` once the iterator
is exhausted.  A non-primary instance does nothing. -/
def boot_opensbi_init_handler (env : BootEnv) (img : BootImage) (m : Machine) :
    HandlerOut :=
  let hd := img.hart (m.ld.target - 1)
  if hd.numChunks ≠ 0 ∧ hd.entryPoint ≠ 0 then
    if m.ld.iterator < 4 then
      let peer := m.ld.iterator + 1
      if peer = m.ld.target then
        ⟨{ m with ld := { m.ld with iterator := m.ld.iterator + 1 } }, []⟩
      else if (img.hart (peer - 1)).entryPoint = hd.entryPoint then
        let r := common_boot_message_delivery env img m peer
        ⟨{ r.m with ld := { r.m.ld with iterator := r.m.ld.iterator + 1 } }, r.events⟩
      else
        ⟨{ m with ld := { m.ld with iterator := m.ld.iterator + 1 } }, []⟩
    else
      ⟨{ m with state := BOOT_WAIT }, []⟩
  else
    ⟨m, []⟩

/-- Effects of `register_harts` beyond the `LocalData` update:
which peers were deregistered, which `(peer, target)` pairs were
registered to the domain, and whether `mpfs_domains_register_boot_hart`
was called for the target's domain. -/
structure RegisterOut where
  ld : LocalData
  deregistered : List Nat
  hartRegs : List (Nat × Nat)
  domainRegistered : Bool
deriving DecidableEq, Repr

/-- One iteration of the peer loop in `register_harts`. -/
def registerHartsPeer (img : BootImage) (target : Nat) (primary : Bool)
    (acc : RegisterOut) (peer : Nat) : RegisterOut :=
  let ld1 := { acc.ld with
    msgIndexAux := acc.ld.msgIndexAux.set (peer - 1) IPI_MAX_NUM_OUTSTANDING_COMPLETES }
  if primary then
    if (img.hart (peer - 1)).flagSkipOpenSBI then
      { acc with ld := ld1, deregistered := acc.deregistered ++ [peer] }
    else if peer = target ∨
        (img.hart (peer - 1)).entryPoint = (img.hart (target - 1)).entryPoint then
      { acc with ld := { ld1 with hartMask := ld1.hartMask ||| (1 <<< peer) }, hartRegs := acc.hartRegs ++ [(peer, target)] }
    else
      { acc with ld := ld1 }
  else
    { acc with ld := ld1 }

/-- `register_harts`: reset the primary slot, decide primacy from the
target's own descriptor (`numChunks` and `entryPoint` both nonzero),
walk the peers resetting each aux slot and (for a primary) deregister
`SKIP_OPENSBI` peers and register same-entry-point peers, then (for a
primary without `SKIP_OPENSBI`) register the boot domain. -/
def register_harts (img : BootImage) (ld : LocalData) : RegisterOut :=
  let target := ld.target
  let primary := ((img.hart (target - 1)).numChunks ≠ 0 ∧
    (img.hart (target - 1)).entryPoint ≠ 0 : Bool)
  let ld0 := { ld with msgIndex := IPI_MAX_NUM_OUTSTANDING_COMPLETES }
  let acc := [1, 2, 3, 4].foldl (registerHartsPeer img target primary)
    ⟨ld0, [], [], false⟩
  { acc with
    domainRegistered := primary && !(img.hart (target - 1)).flagSkipOpenSBI }

/-- `HSS_Boot_PMPSetupHandler` runs on the target hart; its per-hart
latch `pmpSetupFlag[myHartId]` plus counters for the `init_pmp` and APB
bus configuration calls. -/
structure PmpState where
  pmpSetupFlag : Bool
  initPmpCount : Nat
  apbBusCrCount : Nat
deriving DecidableEq, Repr

/-- `HSS_Boot_PMPSetupHandler`: if the latch is clear, run `init_pmp`
and the APB bus configuration and set the latch; either way return
`IPI_SUCCESS`. -/
def HSS_Boot_PMPSetupHandler (s : PmpState) : IPIStatusCode × PmpState :=
  if s.pmpSetupFlag = false then
    (IPI_SUCCESS, ⟨true, s.initPmpCount + 1, s.apbBusCrCount + 1⟩)
  else
    (IPI_SUCCESS, s)

/-- Little-endian 4-byte serialization of a 32-bit word. -/
def natBytes4 (x : Nat) : List Nat :=
  [x % 256, x / 256 % 256, x / 65536 % 256, x / 16777216 % 256]

/-- Modelled from the spec: the byte image of the boot-image header
(`struct HSS_BootImage`, layout in a header outside `src/`): the
`magic`, `headerCrc` and `version` words followed by the signature
bytes, the remaining legacy-`v0` bytes and the current-header-only
bytes. -/
def serializeHdr (img : BootImage) : List Nat :=
  natBytes4 img.magic ++ natBytes4 img.headerCrc ++ natBytes4 img.version ++
    img.signature ++ img.v0rest ++ img.extrabytes

/-- `sizeof(struct HSS_BootImage_v0)` for this image's field widths. -/
def sizeofV0 (img : BootImage) : Nat :=
  12 + img.signature.length + img.v0rest.length

/-- `sizeof(struct HSS_BootImage)` for this image's field widths. -/
def sizeofFull (img : BootImage) : Nat :=
  sizeofV0 img + img.extrabytes.length

/-- The shadow header built by `validateCrc_`: a copy with `headerCrc`
zeroed and the signature bytes memset to zero; the original image is
untouched. -/
def shadowHdr (img : BootImage) : BootImage :=
  { img with headerCrc := 0, signature := List.replicate img.signature.length 0 }

/-- The bytes `CRC32_calculate` is applied to: the shadow header
truncated to the legacy length when `version = 0` and to the full
header length otherwise. -/
def crcShadowBytes (img : BootImage) : List Nat :=
  (serializeHdr (shadowHdr img)).take
    (if img.version = 0 then sizeofV0 img else sizeofFull img)

/-- `validateCrc_`: compare the CRC-32 of the shadow bytes against the
stored `headerCrc`. -/
def validateCrc_ (crc : List Nat → Nat) (img : BootImage) : Bool :=
  decide (crc (crcShadowBytes img) = img.headerCrc)

/-- `HSS_Boot_ValidateImage` with `CONFIG_SERVICE_BOOT` enabled and the
custom boot flow disabled; `se` says whether `CONFIG_CRYPTO_SIGNING` is
enabled and `sc` is `HSS_Boot_Secure_CheckCodeSigning`. -/
def HSS_Boot_ValidateImage (se : Bool) (sc : BootImage → Bool) (crc : List Nat → Nat)
    (p : Option BootImage) : Bool :=
  match p with
  | none => false
  | some img =>
    if img.magic ≠ mHSS_BOOT_MAGIC then false
    else if se && !(sc img) then false
    else if validateCrc_ crc img then true
    else false

/-- `HSS_Boot_VerifyMagic`: the cheaper gate accepting both magics. -/
def HSS_Boot_VerifyMagic (img : BootImage) : Bool :=
  img.magic = mHSS_BOOT_MAGIC || img.magic = mHSS_COMPRESSED_MAGIC

/-- All 32 bits set; the C bitmask arithmetic is on `uint32_t`. -/
def UINT32_MASK : Nat := 4294967295

/-- One iteration of the machine loop in `boot_using_hart_bitmask_`:
a selected machine in `BOOT_OPENSBI_INIT` stays there, one in
`BOOT_SETUP_PMP_COMPLETE`, `BOOT_IDLE` or `BOOT_INITIALIZATION` is
forced to `BOOT_INITIALIZATION`, and any other state is forced to
`BOOT_INITIALIZATION` with a warning; every selected machine sets the
result. -/
def buhbStep (mask : Nat) (acc : Bool × List BootStateId) (i : Nat) :
    Bool × List BootStateId :=
  if mask.testBit (i + 1) then
    match acc.2.getD i BOOT_IDLE with
    | BOOT_OPENSBI_INIT => (true, acc.2.set i BOOT_OPENSBI_INIT)
    | _ => (true, acc.2.set i BOOT_INITIALIZATION)
  else acc

/-- `boot_using_hart_bitmask_` over the four boot machines (index `i`
holds the machine of hart `i + 1`).  The `EVENT_POST_BOOT` notification
is an untracked event. -/
def boot_using_hart_bitmask (mask : Nat) (ms : List BootStateId) :
    Bool × List BootStateId :=
  [0, 1, 2, 3].foldl (buhbStep mask) (false, ms)

/-- The boot-set expansion inside `HSS_Boot_RestartCores_Using_Bitmask`:
the bit of every other hart sharing `source`'s entry point, plus
`source`'s own bit. -/
def restartLocalMask (img : BootImage) (source : Nat) : Nat :=
  ([1, 2, 3, 4].foldl (fun acc peer =>
    if peer = source then acc
    else if (img.hart (peer - 1)).entryPoint = (img.hart (source - 1)).entryPoint then
      acc ||| (1 <<< peer)
    else acc) 0) ||| (1 <<< source)

/-- One iteration of the source loop in
`HSS_Boot_RestartCores_Using_Bitmask`: skip sources whose bit is
cleared; otherwise, when `source` has chunks, force its boot set into a
restart state (recording success), and in every case clear the boot
set's bits from the remaining mask. -/
def restartStep (img : BootImage) (acc : IPIStatusCode × Nat × List BootStateId)
    (source : Nat) : IPIStatusCode × Nat × List BootStateId :=
  if acc.2.1.testBit source then
    if (img.hart (source - 1)).numChunks ≠ 0 then
      let b := boot_using_hart_bitmask (restartLocalMask img source) acc.2.2
      (if b.1 then IPI_SUCCESS else acc.1,
       acc.2.1 &&& (UINT32_MASK ^^^ restartLocalMask img source),
       b.2)
    else
      (acc.1, acc.2.1 &&& (UINT32_MASK ^^^ restartLocalMask img source), acc.2.2)
  else acc

/-- `HSS_Boot_RestartCores_Using_Bitmask`: reject a missing or invalid
image, then walk sources `1..4`. -/
def HSS_Boot_RestartCores_Using_Bitmask (se : Bool) (sc : BootImage → Bool)
    (crc : List Nat → Nat) (p : Option BootImage) (mask : Nat)
    (ms : List BootStateId) : IPIStatusCode × List BootStateId :=
  match p with
  | none => (IPI_FAIL, ms)
  | some img =>
    if HSS_Boot_ValidateImage se sc crc (some img) = false then (IPI_FAIL, ms)
    else
      let acc := [1, 2, 3, 4].foldl (restartStep img) (IPI_FAIL, mask, ms)
      (acc.1, acc.2.2)

/-! ### Concrete scenarios used by counterexamples and witnesses -/

/-- All-zero hart descriptor (no chunks, no entry point, no flags). -/
def hart0 : HartDesc := ⟨0, 0, 0, 0, 0, false, false, false, false⟩

/-- The `size = 0` sentinel load chunk. -/
def sentinelChunk : BootChunkDesc := ⟨0, false, 0, 0, 0⟩

/-- The `size = 0` sentinel zero-init chunk. -/
def sentinelZi : BootZIChunkDesc := ⟨0, 0, 0⟩

/-- A registered image with a valid magic, empty tables and idle hart
descriptors. -/
def emptyImage : BootImage :=
  { magic := mHSS_BOOT_MAGIC, headerCrc := 0, version := 1, signature := [],
    v0rest := [], extrabytes := [], chunkTable := fun _ => sentinelChunk,
    ziTable := fun _ => sentinelZi, hart := fun _ => hart0 }

/-- Fresh per-instance state for a given target, all slots unallocated
and all cursors reset. -/
def mkLd (t : Nat) : LocalData :=
  ⟨t, 0, 0, 0, 0, 0, IPI_MAX_NUM_OUTSTANDING_COMPLETES, 0, 0, 0,
   [IPI_MAX_NUM_OUTSTANDING_COMPLETES, IPI_MAX_NUM_OUTSTANDING_COMPLETES,
    IPI_MAX_NUM_OUTSTANDING_COMPLETES, IPI_MAX_NUM_OUTSTANDING_COMPLETES]⟩

/-! ### Claim theorems -/

/-- Claim C9: invoking `HSS_Boot_PMPSetupHandler` twice on the same hart
configures the PMP exactly once — the first call runs `init_pmp` and the
APB bus configuration and sets the per-hart latch, the second call
observes the latch and changes nothing, and both calls return
`IPI_SUCCESS`. -/
theorem pmp_setup_handler_exactly_once (s : PmpState) (h : s.pmpSetupFlag = false) :
    (HSS_Boot_PMPSetupHandler s).1 = IPI_SUCCESS ∧
    (HSS_Boot_PMPSetupHandler (HSS_Boot_PMPSetupHandler s).2).1 = IPI_SUCCESS ∧
    (HSS_Boot_PMPSetupHandler s).2.initPmpCount = s.initPmpCount + 1 ∧
    (HSS_Boot_PMPSetupHandler s).2.apbBusCrCount = s.apbBusCrCount + 1 ∧
    (HSS_Boot_PMPSetupHandler s).2.pmpSetupFlag = true ∧
    (HSS_Boot_PMPSetupHandler (HSS_Boot_PMPSetupHandler s).2).2 = (HSS_Boot_PMPSetupHandler s).2 := by
  simp [HSS_Boot_PMPSetupHandler, h]

/-- Witness for C9 at the reset state of a hart (latch clear, nothing
configured yet). -/
theorem pmp_setup_handler_exactly_once_witness :
    (⟨false, 0, 0⟩ : PmpState).pmpSetupFlag = false ∧
    (HSS_Boot_PMPSetupHandler (HSS_Boot_PMPSetupHandler ⟨false, 0, 0⟩).2).2.initPmpCount = 1 := by
  have h := pmp_setup_handler_exactly_once ⟨false, 0, 0⟩ rfl
  refine ⟨rfl, ?_⟩
  rw [h.2.2.2.2.2, h.2.2.1]

/-- Claim C8: the header CRC is computed over a shadow copy with the
`headerCrc` field and all signature bytes zeroed — so its input is
independent of the stored `headerCrc` and of the signature contents —
covering the legacy `HSS_BootImage_v0` length when `version = 0` and the
full header length otherwise, and `validateCrc_` succeeds exactly when
the CRC of those shadow bytes equals the stored `headerCrc`; the image
itself is never modified (the embedding is a pure function of the
image). -/
theorem crc_shadow_properties (crc : List Nat → Nat) (img : BootImage) (c : Nat)
    (sig : List Nat) (hlen : sig.length = img.signature.length) :
    crcShadowBytes { img with headerCrc := c } = crcShadowBytes img ∧
    crcShadowBytes { img with signature := sig } = crcShadowBytes img ∧
    (crcShadowBytes img).length = (if img.version = 0 then sizeofV0 img else sizeofFull img) ∧
    (validateCrc_ crc img = true ↔ crc (crcShadowBytes img) = img.headerCrc) ∧
    (shadowHdr img).headerCrc = 0 ∧
    (shadowHdr img).signature = List.replicate img.signature.length 0 := by
  refine ⟨rfl, ?_, ?_, ?_, rfl, rfl⟩
  · simp [crcShadowBytes, shadowHdr, serializeHdr, sizeofV0, sizeofFull, hlen]
  · simp only [crcShadowBytes, List.length_take, serializeHdr, shadowHdr,
      List.length_append, List.length_replicate, natBytes4, List.length_cons,
      List.length_nil, sizeofV0, sizeofFull]
    split <;> omega
  · simp [validateCrc_]

/-- Witness for C8: the shadow CRC input of `emptyImage` ignores a
rewritten `headerCrc` field. -/
theorem crc_shadow_properties_witness :
    crcShadowBytes { emptyImage with headerCrc := 5 } = crcShadowBytes emptyImage :=
  (crc_shadow_properties (fun _ => 0) emptyImage 5 [] rfl).1

/-- Claim C2: `HSS_Boot_ValidateImage` returns true iff the image
pointer is non-null, the magic is the plain boot magic, the signing
check passes whenever signing is enabled (vacuously when disabled) and
the header CRC matches; whenever it returns false,
`HSS_Boot_RestartCores_Using_Bitmask` declines to boot (returns
`IPI_FAIL` leaving every FSM state unchanged). -/
theorem validateImage_iff (se : Bool) (sc : BootImage → Bool) (crc : List Nat → Nat)
    (p : Option BootImage) :
    (HSS_Boot_ValidateImage se sc crc p = true ↔
      ∃ img, p = some img ∧ img.magic = mHSS_BOOT_MAGIC ∧
        (se = true → sc img = true) ∧ validateCrc_ crc img = true) ∧
    (HSS_Boot_ValidateImage se sc crc p = false →
      ∀ mask ms, HSS_Boot_RestartCores_Using_Bitmask se sc crc p mask ms = (IPI_FAIL, ms)) := by
  constructor
  · cases p with
    | none => simp [HSS_Boot_ValidateImage]
    | some img =>
      by_cases hm : img.magic = mHSS_BOOT_MAGIC
      · cases se <;> cases hsc : sc img <;> cases hcrc : validateCrc_ crc img <;>
          simp [HSS_Boot_ValidateImage, hm, hsc, hcrc]
      · simp [HSS_Boot_ValidateImage, hm]
  · intro hfalse mask ms
    cases p with
    | none => rfl
    | some img =>
      simp [HSS_Boot_RestartCores_Using_Bitmask, hfalse]

/-- Witness for C2: a null image pointer fails validation and the
restart API declines. -/
theorem validateImage_iff_witness :
    HSS_Boot_RestartCores_Using_Bitmask false (fun _ => true) (fun _ => 0) none 6
      [BOOT_IDLE, BOOT_IDLE, BOOT_IDLE, BOOT_IDLE] =
      (IPI_FAIL, [BOOT_IDLE, BOOT_IDLE, BOOT_IDLE, BOOT_IDLE]) :=
  (validateImage_iff false (fun _ => true) (fun _ => 0) none).2 rfl 6
    [BOOT_IDLE, BOOT_IDLE, BOOT_IDLE, BOOT_IDLE]

/-- An environment whose permission oracle denies every write. -/
def envDeny : BootEnv :=
  { now := 0, perm := fun _ _ _ => false, ipiComplete := fun _ => true,
    allocSlot := 3, deliver := fun _ => true, inDDR := fun _ => false,
    ddrTrained := false }

/-- Image whose zero-init table holds one 4-byte chunk owned by hart 1
at address 4096, then the sentinel. -/
def imgZi : BootImage :=
  { emptyImage with ziTable := fun n => if n = 0 then ⟨1, 4096, 4⟩ else sentinelZi }

/-- Hart 1's machine sitting in the ZeroInit state. -/
def mZi : Machine := ⟨BOOT_ZERO_INIT_CHUNKS, 0, mkLd 1⟩

/-- Claim C1, counterexample: with a permission oracle that denies every
write, a tick of the ZeroInit handler still performs the 4-byte memset
of hart 1's zero-init chunk — zero-init writes are not gated by
`HSS_PMP_CheckWrite`, refuting the claim that every byte written on a
target's behalf passes the permission oracle. -/
theorem zero_init_writes_without_permission_check :
    (boot_zero_init_chunks_handler envDeny imgZi mZi).events = [BootEvent.zeroE 4096 4] ∧
    envDeny.perm 1 4096 4 = false := by
  decide

/-- An environment whose permission oracle allows every write. -/
def envAllow : BootEnv :=
  { now := 0, perm := fun _ _ _ => true, ipiComplete := fun _ => true,
    allocSlot := 3, deliver := fun _ => true, inDDR := fun _ => false,
    ddrTrained := true }

/-- Image with a single 100-byte load chunk for hart 1 (smaller than
`BOOT_SUB_CHUNK_SIZE`), then the sentinel. -/
def imgDl : BootImage :=
  { emptyImage with
    chunkTable := fun n => if n = 0 then ⟨1, false, 4096, 32768, 100⟩ else sentinelChunk,
    hart := fun i => if i = 0 then
        { hart0 with entryPoint := 32768, numChunks := 1, firstChunk := 0, lastChunk := 0 }
      else hart0 }

/-- Hart 1's machine entering the Download state over `imgDl`. -/
def mDl : Machine := boot_download_chunks_onEntry imgDl ⟨BOOT_DOWNLOAD_CHUNKS, 0, mkLd 1⟩

/-- Claim C3, failing input: one Download tick over a 100-byte chunk
emits a memcpy of the full `BOOT_SUB_CHUNK_SIZE = 256` bytes — not
`min(SUB_CHUNK_SIZE, remaining) = 100` — while the cursor does advance
exactly once (sub-chunk offset reset, chunk count and chunk pointer
incremented). -/
theorem download_subchunk_overrun_at_size_100 :
    (imgDl.chunkTable 0).size = 100 ∧
    (boot_download_chunks_handler envAllow imgDl mDl).events =
      [BootEvent.copyE 32768 4096 BOOT_SUB_CHUNK_SIZE] ∧
    BOOT_SUB_CHUNK_SIZE ≠ min BOOT_SUB_CHUNK_SIZE 100 ∧
    (boot_download_chunks_handler envAllow imgDl mDl).m.ld.chunkCount = mDl.ld.chunkCount + 1 ∧
    (boot_download_chunks_handler envAllow imgDl mDl).m.ld.pChunk = mDl.ld.pChunk + 1 ∧
    (boot_download_chunks_handler envAllow imgDl mDl).m.ld.subChunkOffset = 0 := by
  decide

/-- Environment for the C5 counterexample: slot 5 is not yet complete,
every other slot is. -/
def envAck5 : BootEnv :=
  { now := 0, perm := fun _ _ _ => true, ipiComplete := fun n => decide (n ≠ 5),
    allocSlot := 3, deliver := fun _ => true, inDDR := fun _ => false,
    ddrTrained := true }

/-- Hart 1's machine in SetupPMPComplete holding primary slot 7 and aux
slots 5 (for peer 1) and 6 (for peer 2). -/
def m5 : Machine :=
  ⟨BOOT_SETUP_PMP_COMPLETE, 0,
   { mkLd 1 with msgIndex := 7, msgIndexAux := [5, 6, IPI_MAX_NUM_OUTSTANDING_COMPLETES, IPI_MAX_NUM_OUTSTANDING_COMPLETES] }⟩

/-- Claim C5, counterexample: with aux slot 5 still unacknowledged but
aux slot 6 and the primary slot complete, `check_for_ipi_acks` (whose
loop overwrites its result with the status of each later allocated aux
slot) reports success and the SetupPMPComplete handler advances to
ZeroInit while aux slot 5 is still allocated — refuting the claim that
the FSM advances only after acknowledgements for every allocated
auxiliary slot. -/
theorem setup_pmp_complete_advance_with_outstanding_aux :
    (boot_setup_pmp_complete_handler envAck5 emptyImage m5).m.state = BOOT_ZERO_INIT_CHUNKS ∧
    (boot_setup_pmp_complete_handler envAck5 emptyImage m5).m.ld.msgIndexAux.getD 0
      IPI_MAX_NUM_OUTSTANDING_COMPLETES = 5 ∧
    envAck5.ipiComplete 5 = false ∧
    (5 : Nat) ≠ IPI_MAX_NUM_OUTSTANDING_COMPLETES := by
  decide

/-- Environment for the C6 failing input: allocation hands out slot 3
and every IPI delivery fails. -/
def envFail : BootEnv :=
  { now := 0, perm := fun _ _ _ => true, ipiComplete := fun _ => false,
    allocSlot := 3, deliver := fun _ => false, inDDR := fun _ => false,
    ddrTrained := true }

/-- Image in which harts 1 and 2 share entry point 32768 and hart 1 is
the chunk-carrying primary. -/
def imgSet : BootImage :=
  { emptyImage with hart := fun i =>
      if i = 0 then { hart0 with entryPoint := 32768, numChunks := 1, lastChunk := 0 }
      else if i = 1 then { hart0 with entryPoint := 32768 }
      else hart0 }

/-- Hart 1's machine in OpenSBIInit with its iterator at peer 2. -/
def mSbi : Machine := ⟨BOOT_OPENSBI_INIT, 0, { mkLd 1 with iterator := 1 }⟩

/-- Claim C6, failing input: when the entry-point IPI delivery to peer 2
fails, `common_boot_message_delivery` moves the FSM to `BOOT_ERROR`
without freeing the aux slot (index 3) it has just allocated, and
`boot_error_handler` then reaches `BOOT_COMPLETE` with that slot still
held — the slot is never released on the failure path into
`BOOT_ERROR`. -/
theorem delivery_failure_leaks_aux_slot :
    (boot_opensbi_init_handler envFail imgSet mSbi).m.state = BOOT_ERROR ∧
    (boot_error_handler (boot_opensbi_init_handler envFail imgSet mSbi).m).m.state = BOOT_COMPLETE ∧
    (boot_error_handler (boot_opensbi_init_handler envFail imgSet mSbi).m).m.ld.msgIndexAux.getD 1
      IPI_MAX_NUM_OUTSTANDING_COMPLETES = 3 ∧
    (3 : Nat) ≠ IPI_MAX_NUM_OUTSTANDING_COMPLETES := by
  decide

/-- Image in which harts 1 and 2 share nonzero entry point 123 but only
the higher-indexed hart 2 carries chunks. -/
def imgPrim : BootImage :=
  { emptyImage with hart := fun i =>
      if i = 0 then { hart0 with entryPoint := 123 }
      else if i = 1 then { hart0 with entryPoint := 123, numChunks := 1, lastChunk := 0 }
      else hart0 }

/-- Claim C7, counterexample: in `imgPrim` the boot-set sharing entry
point 123 is harts 1 and 2, with lowest-indexed member 1; yet
`register_harts` registers the domain for instance 2 (the hart with
chunks) and not for instance 1 — the registering primary is decided by
`numChunks != 0 && entryPoint != 0`, not by being the lowest-indexed
member of the boot-set. -/
theorem primary_not_lowest_indexed :
    (imgPrim.hart 0).entryPoint = (imgPrim.hart 1).entryPoint ∧
    (imgPrim.hart 0).entryPoint ≠ 0 ∧
    (register_harts imgPrim (mkLd 1)).domainRegistered = false ∧
    (register_harts imgPrim (mkLd 2)).domainRegistered = true := by
  decide

/-- Claim C4: `boot_wait_handler` re-records `startTime` from the clock
at the top of every invocation and only then evaluates the 5-second
`HSS_Timer_IsElapsed` check, so the elapsed test compares the timeout
against a just-recorded time and the `BOOT_ERROR` timeout branch (with
its slot freeing) is unreachable: every invocation either completes or
leaves the state unchanged, and always overwrites `startTime` with the
current time. -/
theorem boot_wait_never_times_out (env : BootEnv) (img : BootImage) (m : Machine) :
    ((boot_wait_handler env img m).m.state = BOOT_COMPLETE ∨
     (boot_wait_handler env img m).m.state = m.state) ∧
    (boot_wait_handler env img m).m.startTime = env.now := by
  have he : HSS_Timer_IsElapsed env.now env.now BOOT_WAIT_TIMEOUT = false := by
    simp [HSS_Timer_IsElapsed, BOOT_WAIT_TIMEOUT, ONE_SEC]
  simp only [boot_wait_handler]
  split
  · simp
  · rw [he]
    simp only [Bool.false_eq_true, if_false]
    split <;> simp

/-- With no auxiliary slot allocated, `check_for_ipi_acks` reduces to
the primary slot's completion test. -/
theorem check_for_ipi_acks_no_aux (complete : Nat → Bool) (ld : LocalData)
    (hAux : ld.msgIndexAux = [IPI_MAX_NUM_OUTSTANDING_COMPLETES,
      IPI_MAX_NUM_OUTSTANDING_COMPLETES, IPI_MAX_NUM_OUTSTANDING_COMPLETES,
      IPI_MAX_NUM_OUTSTANDING_COMPLETES]) :
    check_for_ipi_acks complete ld =
      (if ld.msgIndex ≠ IPI_MAX_NUM_OUTSTANDING_COMPLETES then
        (if complete ld.msgIndex then
          (true, { ld with msgIndex := IPI_MAX_NUM_OUTSTANDING_COMPLETES })
        else (false, ld))
      else (true, ld)) := by
  obtain ⟨t, pc, pz, cc, zc, so, mi, hm, it, ad, aux⟩ := ld
  have h2 : aux = [IPI_MAX_NUM_OUTSTANDING_COMPLETES, IPI_MAX_NUM_OUTSTANDING_COMPLETES,
      IPI_MAX_NUM_OUTSTANDING_COMPLETES, IPI_MAX_NUM_OUTSTANDING_COMPLETES] := hAux
  subst h2
  simp [check_for_ipi_acks, ackScanPeer, List.getD_cons_zero, List.getD_cons_succ]

/-- Claim C5 (amended): in `SetupPMPComplete`, when no auxiliary slot is
allocated — the situation arising in the boot flow, where aux slots are
only allocated later in `OpenSBIInit` — the FSM advances exactly when
the primary slot is unallocated or acknowledged, freeing it and moving
to `BOOT_COMPLETE` if the target's `SKIP_AUTOBOOT` flag is set and to
`BOOT_ZERO_INIT_CHUNKS` otherwise; when 1 second has elapsed since the
recorded boot start time it frees all auxiliary slots and the primary
slot and moves to `BOOT_ERROR`; otherwise it stays put. -/
theorem setup_pmp_complete_behaviour (env : BootEnv) (img : BootImage) (m : Machine)
    (hAux : m.ld.msgIndexAux = [IPI_MAX_NUM_OUTSTANDING_COMPLETES,
      IPI_MAX_NUM_OUTSTANDING_COMPLETES, IPI_MAX_NUM_OUTSTANDING_COMPLETES,
      IPI_MAX_NUM_OUTSTANDING_COMPLETES]) :
    (HSS_Timer_IsElapsed env.now m.startTime BOOT_SETUP_PMP_COMPLETE_TIMEOUT = true →
      boot_setup_pmp_complete_handler env img m =
        ⟨{ m with ld := free_all_slots m.ld, state := BOOT_ERROR }, []⟩) ∧
    (HSS_Timer_IsElapsed env.now m.startTime BOOT_SETUP_PMP_COMPLETE_TIMEOUT = false →
      ((check_for_ipi_acks env.ipiComplete m.ld).1 = true ↔
        (m.ld.msgIndex = IPI_MAX_NUM_OUTSTANDING_COMPLETES ∨
         env.ipiComplete m.ld.msgIndex = true)) ∧
      ((check_for_ipi_acks env.ipiComplete m.ld).1 = true →
        (boot_setup_pmp_complete_handler env img m).m.state =
          (if (img.hart (m.ld.target - 1)).flagSkipAutoboot then BOOT_COMPLETE
           else BOOT_ZERO_INIT_CHUNKS) ∧
        (boot_setup_pmp_complete_handler env img m).m.ld.msgIndex =
          IPI_MAX_NUM_OUTSTANDING_COMPLETES) ∧
      ((check_for_ipi_acks env.ipiComplete m.ld).1 = false →
        (boot_setup_pmp_complete_handler env img m).m.state = m.state)) := by
  have hack := check_for_ipi_acks_no_aux env.ipiComplete m.ld hAux
  constructor
  · intro he
    simp [boot_setup_pmp_complete_handler, he]
  · intro he
    refine ⟨?_, ?_, ?_⟩
    · rw [hack]
      by_cases hmi : m.ld.msgIndex = IPI_MAX_NUM_OUTSTANDING_COMPLETES
      · simp [hmi]
      · cases hc : env.ipiComplete m.ld.msgIndex <;> simp [hmi, hc]
    · intro hok
      have hmsg : (check_for_ipi_acks env.ipiComplete m.ld).2.msgIndex =
          IPI_MAX_NUM_OUTSTANDING_COMPLETES := by
        rw [hack] at hok ⊢
        by_cases hmi : m.ld.msgIndex = IPI_MAX_NUM_OUTSTANDING_COMPLETES
        · simp [hmi]
        · cases hc : env.ipiComplete m.ld.msgIndex
          · simp [hmi, hc] at hok
          · simp [hmi, hc]
      simp only [boot_setup_pmp_complete_handler, he, Bool.false_eq_true, if_false, hok, if_true]
      cases hf : (img.hart (m.ld.target - 1)).flagSkipAutoboot <;>
        simp [hf, hmsg]
    · intro hbad
      simp [boot_setup_pmp_complete_handler, he, hbad]

/-- Machine for the C5 witness: SetupPMPComplete with only the primary
slot (7) allocated. -/
def m5w : Machine := ⟨BOOT_SETUP_PMP_COMPLETE, 0, { mkLd 1 with msgIndex := 7 }⟩

/-- Witness for C5 (amended claim) at a state with no aux slots, an
acknowledged primary slot 7 and `SKIP_AUTOBOOT` clear: the FSM advances
to ZeroInit and frees the primary slot. -/
theorem setup_pmp_complete_behaviour_witness :
    (boot_setup_pmp_complete_handler envAllow emptyImage m5w).m.state = BOOT_ZERO_INIT_CHUNKS ∧
    (boot_setup_pmp_complete_handler envAllow emptyImage m5w).m.ld.msgIndex =
      IPI_MAX_NUM_OUTSTANDING_COMPLETES := by
  have h := ((setup_pmp_complete_behaviour envAllow emptyImage m5w rfl).2 (by decide)).2.1 (by decide)
  refine ⟨?_, h.2⟩
  rw [h.1]
  decide

/-- One `restartStep` iteration neither sets `IPI_SUCCESS` nor touches
any FSM state when every hart selected by the original mask has no
chunks, and the remaining mask stays inside the original mask. -/
theorem restartStep_no_chunks (img : BootImage) (mask0 : Nat) (ms0 : List BootStateId)
    (hz : ∀ i, 1 ≤ i → i ≤ 4 → mask0.testBit i = true → (img.hart (i - 1)).numChunks = 0)
    (acc : IPIStatusCode × Nat × List BootStateId) (src : Nat) (h1 : 1 ≤ src)
    (h2 : src ≤ 4) (hres : acc.1 = IPI_FAIL) (hms : acc.2.2 = ms0)
    (hsub : ∀ i, acc.2.1.testBit i = true → mask0.testBit i = true) :
    (restartStep img acc src).1 = IPI_FAIL ∧
    (restartStep img acc src).2.2 = ms0 ∧
    (∀ i, (restartStep img acc src).2.1.testBit i = true → mask0.testBit i = true) := by
  by_cases hbit : acc.2.1.testBit src = true
  · have hz0 : (img.hart (src - 1)).numChunks = 0 := hz src h1 h2 (hsub src hbit)
    simp only [restartStep, hbit, if_true, hz0, ne_eq, not_true_eq_false, if_false]
    refine ⟨hres, hms, ?_⟩
    intro i hi
    simp only [Nat.testBit_land, Bool.and_eq_true] at hi
    exact hsub i hi.1
  · simp only [restartStep, hbit, if_false]
    exact ⟨hres, hms, hsub⟩

/-- Claim C10: `HSS_Boot_RestartCores_Using_Bitmask` returns
`IPI_SUCCESS` only if some selected hart has chunks — whenever every
hart selected by the bitmask has `numChunks = 0` (in particular when
the registered image validates), the call returns `IPI_FAIL` and no FSM
instance's state is changed. -/
theorem restartCores_fail_when_no_selected_chunks (se : Bool) (sc : BootImage → Bool)
    (crc : List Nat → Nat) (img : BootImage) (mask : Nat) (ms : List BootStateId)
    (hz : ∀ i, 1 ≤ i → i ≤ 4 → mask.testBit i = true → (img.hart (i - 1)).numChunks = 0) :
    HSS_Boot_RestartCores_Using_Bitmask se sc crc (some img) mask ms = (IPI_FAIL, ms) := by
  have step := restartStep_no_chunks img mask ms hz
  have s1 := step (IPI_FAIL, mask, ms) 1 (by norm_num) (by norm_num) rfl rfl (fun i hi => hi)
  have s2 := step _ 2 (by norm_num) (by norm_num) s1.1 s1.2.1 s1.2.2
  have s3 := step _ 3 (by norm_num) (by norm_num) s2.1 s2.2.1 s2.2.2
  have s4 := step _ 4 (by norm_num) (by norm_num) s3.1 s3.2.1 s3.2.2
  simp only [HSS_Boot_RestartCores_Using_Bitmask]
  by_cases hv : HSS_Boot_ValidateImage se sc crc (some img) = false
  · simp [hv]
  · rw [if_neg hv]
    simp only [List.foldl_cons, List.foldl_nil]
    rw [s4.1, s4.2.1]

/-- Witness for C10: with the registered `emptyImage` (which validates
under a CRC oracle returning its stored value, and in which no hart has
chunks) and harts 1 and 2 selected, the restart call fails and leaves
all four machines idle. -/
theorem restartCores_fail_witness :
    HSS_Boot_RestartCores_Using_Bitmask false (fun _ => true) (fun _ => 0) (some emptyImage) 6
      [BOOT_IDLE, BOOT_IDLE, BOOT_IDLE, BOOT_IDLE] =
      (IPI_FAIL, [BOOT_IDLE, BOOT_IDLE, BOOT_IDLE, BOOT_IDLE]) :=
  restartCores_fail_when_no_selected_chunks false (fun _ => true) (fun _ => 0) emptyImage 6
    [BOOT_IDLE, BOOT_IDLE, BOOT_IDLE, BOOT_IDLE] (fun _ _ _ _ => rfl)

/-- Claim C1 (amended): every chunk copy the Download handler performs
is gated by `HSS_PMP_CheckWrite(target, chunk.execAddr, chunk.size)` at
the moment of the copy; a non-sentinel in-range chunk failing the
ownership or permission test is skipped with a logged message (cursor
advanced, nothing copied) and the FSM stays in the Download state; but
zero-init writes in the ZeroInit state are gated only by chunk
ownership and DDR readiness — never by `HSS_PMP_CheckWrite`. -/
theorem download_permission_gate (env : BootEnv) (img : BootImage) (m : Machine) :
    (∀ d s n, BootEvent.copyE d s n ∈ (boot_download_chunks_handler env img m).events →
      (img.chunkTable m.ld.pChunk).owner = m.ld.target ∧
      env.perm m.ld.target (img.chunkTable m.ld.pChunk).execAddr
        (img.chunkTable m.ld.pChunk).size = true) ∧
    ((img.hart (m.ld.target - 1)).numChunks ≠ 0 →
      m.ld.chunkCount ≤ (img.hart (m.ld.target - 1)).lastChunk →
      (img.chunkTable m.ld.pChunk).size ≠ 0 →
      ¬((img.chunkTable m.ld.pChunk).owner = m.ld.target ∧
        env.perm m.ld.target (img.chunkTable m.ld.pChunk).execAddr
          (img.chunkTable m.ld.pChunk).size = true) →
      boot_download_chunks_handler env img m =
        ⟨{ m with ld := { m.ld with pChunk := m.ld.pChunk + 1 } },
         [if (img.chunkTable m.ld.pChunk).owner = m.ld.target ∧
             (img.chunkTable m.ld.pChunk).ancFlag = false then BootEvent.logErrorE
          else BootEvent.logWarnE]⟩) ∧
    (∀ d n, BootEvent.zeroE d n ∈ (boot_zero_init_chunks_handler env img m).events ↔
      ((img.ziTable m.ld.pZiChunk).size ≠ 0 ∧
       m.ld.target = (img.ziTable m.ld.pZiChunk).owner ∧
       (env.inDDR (img.ziTable m.ld.pZiChunk).execAddr = false ∨ env.ddrTrained = true) ∧
       d = (img.ziTable m.ld.pZiChunk).execAddr ∧
       n = (img.ziTable m.ld.pZiChunk).size)) := by
  refine ⟨?_, ?_, ?_⟩
  · intro d s n hmem
    by_cases h1 : (img.hart (m.ld.target - 1)).numChunks ≠ 0
    · by_cases h2 : m.ld.chunkCount ≤ (img.hart (m.ld.target - 1)).lastChunk ∧
        (img.chunkTable m.ld.pChunk).size ≠ 0
      · by_cases h3 : (img.chunkTable m.ld.pChunk).owner = m.ld.target ∧
          env.perm m.ld.target (img.chunkTable m.ld.pChunk).execAddr
            (img.chunkTable m.ld.pChunk).size = true
        · exact h3
        · exfalso
          simp [boot_download_chunks_handler, h1, h2, h3] at hmem
          split at hmem <;> simp at hmem
      · simp [boot_download_chunks_handler, h1, h2] at hmem
    · simp [boot_download_chunks_handler, h1] at hmem
  · intro h1 h2 h3 h4
    simp only [boot_download_chunks_handler, h1, ne_eq, not_false_eq_true, if_true]
    rw [if_pos ⟨h2, h3⟩, if_neg h4]
  · intro d n
    by_cases hs : (img.ziTable m.ld.pZiChunk).size ≠ 0
    · by_cases ho : m.ld.target = (img.ziTable m.ld.pZiChunk).owner
      · cases hin : env.inDDR (img.ziTable m.ld.pZiChunk).execAddr <;>
          cases htr : env.ddrTrained <;>
          simp [boot_zero_init_chunks_handler, hs, ho, hin, htr]
      · simp [boot_zero_init_chunks_handler, hs, ho]
    · simp [boot_zero_init_chunks_handler, hs]

/-- Image whose first chunk is owned by hart 2 while hart 1 is the
downloading target. -/
def imgSkip : BootImage :=
  { emptyImage with
    chunkTable := fun n => if n = 0 then ⟨2, false, 0, 64, 5⟩ else sentinelChunk,
    hart := fun i => if i = 0 then
        { hart0 with entryPoint := 64, numChunks := 1, firstChunk := 0, lastChunk := 0 }
      else hart0 }

/-- Hart 1's machine in the Download state over `imgSkip`. -/
def mSkip : Machine := ⟨BOOT_DOWNLOAD_CHUNKS, 0, mkLd 1⟩

/-- Witness for C1 (amended claim): a foreign-owned chunk is skipped
with a warning log, the cursor advances and nothing is copied. -/
theorem download_permission_gate_witness :
    boot_download_chunks_handler envAllow imgSkip mSkip =
      ⟨{ mSkip with ld := { mSkip.ld with pChunk := mSkip.ld.pChunk + 1 } },
       [BootEvent.logWarnE]⟩ := by
  have h := (download_permission_gate envAllow imgSkip mSkip).2.1
    (by decide) (by decide) (by decide) (by decide)
  rw [h]
  decide

/-- Claim C7 (amended): an FSM instance acts as the boot-set primary iff
its own hart descriptor has nonzero `numChunks` and nonzero
`entryPoint` — it need not be the lowest-indexed member of the set.
`register_harts` registers the boot domain exactly for a primary whose
target does not carry `SKIP_OPENSBI`, and a tick of the OpenSBIInit
handler delivers an entry-point IPI exactly when the instance is
primary and its iterator sits on another hart sharing its entry
point. -/
theorem primary_registration_characterisation (env : BootEnv) (img : BootImage)
    (ld : LocalData) (m : Machine) :
    ((register_harts img ld).domainRegistered = true ↔
      ((img.hart (ld.target - 1)).numChunks ≠ 0 ∧
       (img.hart (ld.target - 1)).entryPoint ≠ 0 ∧
       (img.hart (ld.target - 1)).flagSkipOpenSBI = false)) ∧
    (∀ peer, (∃ slot msg, BootEvent.deliverE slot peer msg ∈
        (boot_opensbi_init_handler env img m).events) ↔
      ((img.hart (m.ld.target - 1)).numChunks ≠ 0 ∧
       (img.hart (m.ld.target - 1)).entryPoint ≠ 0 ∧
       m.ld.iterator < 4 ∧ peer = m.ld.iterator + 1 ∧ peer ≠ m.ld.target ∧
       (img.hart (peer - 1)).entryPoint = (img.hart (m.ld.target - 1)).entryPoint)) := by
  constructor
  · simp [register_harts, and_assoc]
  · intro peer
    by_cases hp : ((img.hart (m.ld.target - 1)).numChunks ≠ 0 ∧
        (img.hart (m.ld.target - 1)).entryPoint ≠ 0)
    · by_cases hi : m.ld.iterator < 4
      · by_cases hq : m.ld.iterator + 1 = m.ld.target
        · have hev : (boot_opensbi_init_handler env img m).events = [] := by
            simp [boot_opensbi_init_handler, hp, hi, hq]
          rw [hev]
          constructor
          · rintro ⟨s1, m1, hmem⟩
            exact absurd hmem (List.not_mem_nil _)
          · rintro ⟨-, -, -, rfl, hne, -⟩
            exact absurd hq hne
        · by_cases heq : (img.hart m.ld.iterator).entryPoint =
              (img.hart (m.ld.target - 1)).entryPoint
          · have hev : (boot_opensbi_init_handler env img m).events =
                [BootEvent.deliverE env.allocSlot (m.ld.iterator + 1)
                  (if (img.hart m.ld.iterator).flagSkipOpenSBI then IPIMsg.GOTO
                   else IPIMsg.OPENSBI_INIT)] := by
              cases hdel : env.deliver (m.ld.iterator + 1) <;>
                simp [boot_opensbi_init_handler, common_boot_message_delivery,
                  hp, hi, hq, heq, hdel]
            rw [hev]
            constructor
            · rintro ⟨slot, msg, hmem⟩
              rw [List.mem_singleton] at hmem
              injection hmem with h1 h2 h3
              subst h2
              exact ⟨hp.1, hp.2, hi, rfl, hq, by simpa using heq⟩
            · rintro ⟨-, -, -, rfl, -, -⟩
              exact ⟨env.allocSlot,
                if (img.hart m.ld.iterator).flagSkipOpenSBI then IPIMsg.GOTO
                else IPIMsg.OPENSBI_INIT, by simp⟩
          · have hev : (boot_opensbi_init_handler env img m).events = [] := by
              simp [boot_opensbi_init_handler, hp, hi, hq, heq]
            rw [hev]
            constructor
            · rintro ⟨s1, m1, hmem⟩
              exact absurd hmem (List.not_mem_nil _)
            · rintro ⟨-, -, -, rfl, -, hent⟩
              exact absurd (by simpa using hent) heq
      · have hev : (boot_opensbi_init_handler env img m).events = [] := by
          simp [boot_opensbi_init_handler, hp, hi]
        rw [hev]
        constructor
        · rintro ⟨s1, m1, hmem⟩
          exact absurd hmem (List.not_mem_nil _)
        · rintro ⟨-, -, hi', -⟩
          exact absurd hi' hi
    · have hev : (boot_opensbi_init_handler env img m).events = [] := by
        simp [boot_opensbi_init_handler, hp]
      rw [hev]
      constructor
      · rintro ⟨s1, m1, hmem⟩
        exact absurd hmem (List.not_mem_nil _)
      · rintro ⟨ha, hb, -⟩
        exact absurd ⟨ha, hb⟩ hp

/-- Witness for C7 (amended claim): instance 2 over `imgPrim` — nonzero
chunks and entry point, `SKIP_OPENSBI` clear — registers the boot
domain. -/
theorem primary_registration_characterisation_witness :
    (register_harts imgPrim (mkLd 2)).domainRegistered = true :=
  ((primary_registration_characterisation envAllow imgPrim (mkLd 2) mSkip).1).mpr
    ⟨by decide, by decide, by decide⟩
